import Mathlib

/-!
Shallow embedding of the `httperror` Go package: the `HttpError` value type
with its catalog of status constructors, the commitment-tracking
`responseWriter` proxy, the error-reporter middleware dispatch loop, and the
default error handler, together with theorems about their behaviour.
-/

namespace Httperror

/-- Embeds the Go struct `HttpError` (httperror_helpers.go): an error value
carrying an HTTP status code and a human-readable message. -/
structure HttpError where
  Status : Int
  Message : String
deriving DecidableEq

/-- Embeds `func New(status int, message string) *HttpError`
(httperror_helpers.go): builds an `HttpError` from a status and a message,
with no validation, clamping or failure path. -/
def New (status : Int) (message : String) : HttpError :=
  { Status := status, Message := message }

/-- Embeds Go's `http.StatusText` for the codes used by this package's
catalog of constructors (400-511); unknown codes map to the empty string,
as in the Go standard library. -/
def statusText (code : Int) : String :=
  if code = 400 then "Bad Request"
  else if code = 401 then "Unauthorized"
  else if code = 402 then "Payment Required"
  else if code = 403 then "Forbidden"
  else if code = 404 then "Not Found"
  else if code = 405 then "Method Not Allowed"
  else if code = 406 then "Not Acceptable"
  else if code = 407 then "Proxy Authentication Required"
  else if code = 408 then "Request Timeout"
  else if code = 409 then "Conflict"
  else if code = 410 then "Gone"
  else if code = 411 then "Length Required"
  else if code = 412 then "Precondition Failed"
  else if code = 413 then "Request Entity Too Large"
  else if code = 414 then "Request URI Too Long"
  else if code = 415 then "Unsupported Media Type"
  else if code = 416 then "Requested Range Not Satisfiable"
  else if code = 417 then "Expectation Failed"
  else if code = 418 then "I\x27m a teapot"
  else if code = 421 then "Misdirected Request"
  else if code = 422 then "Unprocessable Entity"
  else if code = 423 then "Locked"
  else if code = 424 then "Failed Dependency"
  else if code = 425 then "Too Early"
  else if code = 426 then "Upgrade Required"
  else if code = 428 then "Precondition Required"
  else if code = 429 then "Too Many Requests"
  else if code = 431 then "Request Header Fields Too Large"
  else if code = 451 then "Unavailable For Legal Reasons"
  else if code = 500 then "Internal Server Error"
  else if code = 501 then "Not Implemented"
  else if code = 502 then "Bad Gateway"
  else if code = 503 then "Service Unavailable"
  else if code = 504 then "Gateway Timeout"
  else if code = 505 then "HTTP Version Not Supported"
  else if code = 506 then "Variant Also Negotiates"
  else if code = 507 then "Insufficient Storage"
  else if code = 508 then "Loop Detected"
  else if code = 510 then "Not Extended"
  else if code = 511 then "Network Authentication Required"
  else ""

/-- Embeds the shared shape of every catalog constructor body
(httperror_helpers.go): `msg := http.StatusText(code); if len(message) > 0
then msg = message[0]`. The Go variadic `message ...string` is a
`List String`. -/
def defaultedMessage (code : Int) (message : List String) : String :=
  match message with
  | m :: _ => m
  | [] => statusText code

/-- Embeds `func BadRequest(message ...string) *HttpError`. -/
def BadRequest (message : List String) : HttpError :=
  New 400 (defaultedMessage 400 message)

/-- Embeds `func Unauthorized(message ...string) *HttpError`. -/
def Unauthorized (message : List String) : HttpError :=
  New 401 (defaultedMessage 401 message)

/-- Embeds `func PaymentRequired(message ...string) *HttpError`. -/
def PaymentRequired (message : List String) : HttpError :=
  New 402 (defaultedMessage 402 message)

/-- Embeds `func Forbidden(message ...string) *HttpError`. -/
def Forbidden (message : List String) : HttpError :=
  New 403 (defaultedMessage 403 message)

/-- Embeds `func NotFound(message ...string) *HttpError`. -/
def NotFound (message : List String) : HttpError :=
  New 404 (defaultedMessage 404 message)

/-- Embeds `func MethodNotAllowed(message ...string) *HttpError`. -/
def MethodNotAllowed (message : List String) : HttpError :=
  New 405 (defaultedMessage 405 message)

/-- Embeds `func NotAcceptable(message ...string) *HttpError`. -/
def NotAcceptable (message : List String) : HttpError :=
  New 406 (defaultedMessage 406 message)

/-- Embeds `func ProxyAuthRequired(message ...string) *HttpError`. -/
def ProxyAuthRequired (message : List String) : HttpError :=
  New 407 (defaultedMessage 407 message)

/-- Embeds `func RequestTimeout(message ...string) *HttpError`. -/
def RequestTimeout (message : List String) : HttpError :=
  New 408 (defaultedMessage 408 message)

/-- Embeds `func Conflict(message ...string) *HttpError`. -/
def Conflict (message : List String) : HttpError :=
  New 409 (defaultedMessage 409 message)

/-- Embeds `func Gone(message ...string) *HttpError`. -/
def Gone (message : List String) : HttpError :=
  New 410 (defaultedMessage 410 message)

/-- Embeds `func LengthRequired(message ...string) *HttpError`. -/
def LengthRequired (message : List String) : HttpError :=
  New 411 (defaultedMessage 411 message)

/-- Embeds `func PreconditionFailed(message ...string) *HttpError`. -/
def PreconditionFailed (message : List String) : HttpError :=
  New 412 (defaultedMessage 412 message)

/-- Embeds `func PayloadTooLarge(message ...string) *HttpError` (Go status
constant `StatusRequestEntityTooLarge` = 413). -/
def PayloadTooLarge (message : List String) : HttpError :=
  New 413 (defaultedMessage 413 message)

/-- Embeds `func URITooLong(message ...string) *HttpError` (Go status
constant `StatusRequestURITooLong` = 414). -/
def URITooLong (message : List String) : HttpError :=
  New 414 (defaultedMessage 414 message)

/-- Embeds `func UnsupportedMediaType(message ...string) *HttpError`. -/
def UnsupportedMediaType (message : List String) : HttpError :=
  New 415 (defaultedMessage 415 message)

/-- Embeds `func RangeNotSatisfiable(message ...string) *HttpError` (Go
status constant `StatusRequestedRangeNotSatisfiable` = 416). -/
def RangeNotSatisfiable (message : List String) : HttpError :=
  New 416 (defaultedMessage 416 message)

/-- Embeds `func ExpectationFailed(message ...string) *HttpError`. -/
def ExpectationFailed (message : List String) : HttpError :=
  New 417 (defaultedMessage 417 message)

/-- Embeds `func Teapot(message ...string) *HttpError`. -/
def Teapot (message : List String) : HttpError :=
  New 418 (defaultedMessage 418 message)

/-- Embeds `func MisdirectedRequest(message ...string) *HttpError`. -/
def MisdirectedRequest (message : List String) : HttpError :=
  New 421 (defaultedMessage 421 message)

/-- Embeds `func UnprocessableEntity(message ...string) *HttpError`. -/
def UnprocessableEntity (message : List String) : HttpError :=
  New 422 (defaultedMessage 422 message)

/-- Embeds `func Locked(message ...string) *HttpError`. -/
def Locked (message : List String) : HttpError :=
  New 423 (defaultedMessage 423 message)

/-- Embeds `func FailedDependency(message ...string) *HttpError`. -/
def FailedDependency (message : List String) : HttpError :=
  New 424 (defaultedMessage 424 message)

/-- Embeds `func TooEarly(message ...string) *HttpError`. -/
def TooEarly (message : List String) : HttpError :=
  New 425 (defaultedMessage 425 message)

/-- Embeds `func UpgradeRequired(message ...string) *HttpError`. -/
def UpgradeRequired (message : List String) : HttpError :=
  New 426 (defaultedMessage 426 message)

/-- Embeds `func PreconditionRequired(message ...string) *HttpError`. -/
def PreconditionRequired (message : List String) : HttpError :=
  New 428 (defaultedMessage 428 message)

/-- Embeds `func TooManyRequests(message ...string) *HttpError`. -/
def TooManyRequests (message : List String) : HttpError :=
  New 429 (defaultedMessage 429 message)

/-- Embeds `func RequestHeaderFieldsTooLarge(message ...string) *HttpError`. -/
def RequestHeaderFieldsTooLarge (message : List String) : HttpError :=
  New 431 (defaultedMessage 431 message)

/-- Embeds `func UnavailableForLegalReasons(message ...string) *HttpError`. -/
def UnavailableForLegalReasons (message : List String) : HttpError :=
  New 451 (defaultedMessage 451 message)

/-- Embeds `func InternalServerError(message ...string) *HttpError`. -/
def InternalServerError (message : List String) : HttpError :=
  New 500 (defaultedMessage 500 message)

/-- Embeds `func NotImplemented(message ...string) *HttpError`. -/
def NotImplemented (message : List String) : HttpError :=
  New 501 (defaultedMessage 501 message)

/-- Embeds `func BadGateway(message ...string) *HttpError`. -/
def BadGateway (message : List String) : HttpError :=
  New 502 (defaultedMessage 502 message)

/-- Embeds `func ServiceUnavailable(message ...string) *HttpError`. -/
def ServiceUnavailable (message : List String) : HttpError :=
  New 503 (defaultedMessage 503 message)

/-- Embeds `func GatewayTimeout(message ...string) *HttpError`. -/
def GatewayTimeout (message : List String) : HttpError :=
  New 504 (defaultedMessage 504 message)

/-- Embeds `func HTTPVersionNotSupported(message ...string) *HttpError`. -/
def HTTPVersionNotSupported (message : List String) : HttpError :=
  New 505 (defaultedMessage 505 message)

/-- Embeds `func VariantAlsoNegotiates(message ...string) *HttpError`. -/
def VariantAlsoNegotiates (message : List String) : HttpError :=
  New 506 (defaultedMessage 506 message)

/-- Embeds `func InsufficientStorage(message ...string) *HttpError`. -/
def InsufficientStorage (message : List String) : HttpError :=
  New 507 (defaultedMessage 507 message)

/-- Embeds `func LoopDetected(message ...string) *HttpError`. -/
def LoopDetected (message : List String) : HttpError :=
  New 508 (defaultedMessage 508 message)

/-- Embeds `func NotExtended(message ...string) *HttpError`. -/
def NotExtended (message : List String) : HttpError :=
  New 510 (defaultedMessage 510 message)

/-- Embeds `func NetworkAuthenticationRequired(message ...string) *HttpError`. -/
def NetworkAuthenticationRequired (message : List String) : HttpError :=
  New 511 (defaultedMessage 511 message)

/-- C6: every status-catalog constructor, called with no message argument,
returns an `HttpError` whose message is the standard reason phrase for its
fixed status, and called with a message argument returns one whose message
is that argument; in both cases the value carries the constructor's fixed
status code. -/
theorem catalog_constructor_status_and_message (m : String) :
    (BadRequest [] = { Status := 400, Message := "Bad Request" } ∧
      BadRequest [m] = { Status := 400, Message := m }) ∧
    (Unauthorized [] = { Status := 401, Message := "Unauthorized" } ∧
      Unauthorized [m] = { Status := 401, Message := m }) ∧
    (PaymentRequired [] = { Status := 402, Message := "Payment Required" } ∧
      PaymentRequired [m] = { Status := 402, Message := m }) ∧
    (Forbidden [] = { Status := 403, Message := "Forbidden" } ∧
      Forbidden [m] = { Status := 403, Message := m }) ∧
    (NotFound [] = { Status := 404, Message := "Not Found" } ∧
      NotFound [m] = { Status := 404, Message := m }) ∧
    (MethodNotAllowed [] = { Status := 405, Message := "Method Not Allowed" } ∧
      MethodNotAllowed [m] = { Status := 405, Message := m }) ∧
    (NotAcceptable [] = { Status := 406, Message := "Not Acceptable" } ∧
      NotAcceptable [m] = { Status := 406, Message := m }) ∧
    (ProxyAuthRequired [] = { Status := 407, Message := "Proxy Authentication Required" } ∧
      ProxyAuthRequired [m] = { Status := 407, Message := m }) ∧
    (RequestTimeout [] = { Status := 408, Message := "Request Timeout" } ∧
      RequestTimeout [m] = { Status := 408, Message := m }) ∧
    (Conflict [] = { Status := 409, Message := "Conflict" } ∧
      Conflict [m] = { Status := 409, Message := m }) ∧
    (Gone [] = { Status := 410, Message := "Gone" } ∧
      Gone [m] = { Status := 410, Message := m }) ∧
    (LengthRequired [] = { Status := 411, Message := "Length Required" } ∧
      LengthRequired [m] = { Status := 411, Message := m }) ∧
    (PreconditionFailed [] = { Status := 412, Message := "Precondition Failed" } ∧
      PreconditionFailed [m] = { Status := 412, Message := m }) ∧
    (PayloadTooLarge [] = { Status := 413, Message := "Request Entity Too Large" } ∧
      PayloadTooLarge [m] = { Status := 413, Message := m }) ∧
    (URITooLong [] = { Status := 414, Message := "Request URI Too Long" } ∧
      URITooLong [m] = { Status := 414, Message := m }) ∧
    (UnsupportedMediaType [] = { Status := 415, Message := "Unsupported Media Type" } ∧
      UnsupportedMediaType [m] = { Status := 415, Message := m }) ∧
    (RangeNotSatisfiable [] = { Status := 416, Message := "Requested Range Not Satisfiable" } ∧
      RangeNotSatisfiable [m] = { Status := 416, Message := m }) ∧
    (ExpectationFailed [] = { Status := 417, Message := "Expectation Failed" } ∧
      ExpectationFailed [m] = { Status := 417, Message := m }) ∧
    (Teapot [] = { Status := 418, Message := "I\x27m a teapot" } ∧
      Teapot [m] = { Status := 418, Message := m }) ∧
    (MisdirectedRequest [] = { Status := 421, Message := "Misdirected Request" } ∧
      MisdirectedRequest [m] = { Status := 421, Message := m }) ∧
    (UnprocessableEntity [] = { Status := 422, Message := "Unprocessable Entity" } ∧
      UnprocessableEntity [m] = { Status := 422, Message := m }) ∧
    (Locked [] = { Status := 423, Message := "Locked" } ∧
      Locked [m] = { Status := 423, Message := m }) ∧
    (FailedDependency [] = { Status := 424, Message := "Failed Dependency" } ∧
      FailedDependency [m] = { Status := 424, Message := m }) ∧
    (TooEarly [] = { Status := 425, Message := "Too Early" } ∧
      TooEarly [m] = { Status := 425, Message := m }) ∧
    (UpgradeRequired [] = { Status := 426, Message := "Upgrade Required" } ∧
      UpgradeRequired [m] = { Status := 426, Message := m }) ∧
    (PreconditionRequired [] = { Status := 428, Message := "Precondition Required" } ∧
      PreconditionRequired [m] = { Status := 428, Message := m }) ∧
    (TooManyRequests [] = { Status := 429, Message := "Too Many Requests" } ∧
      TooManyRequests [m] = { Status := 429, Message := m }) ∧
    (RequestHeaderFieldsTooLarge [] = { Status := 431, Message := "Request Header Fields Too Large" } ∧
      RequestHeaderFieldsTooLarge [m] = { Status := 431, Message := m }) ∧
    (UnavailableForLegalReasons [] = { Status := 451, Message := "Unavailable For Legal Reasons" } ∧
      UnavailableForLegalReasons [m] = { Status := 451, Message := m }) ∧
    (InternalServerError [] = { Status := 500, Message := "Internal Server Error" } ∧
      InternalServerError [m] = { Status := 500, Message := m }) ∧
    (NotImplemented [] = { Status := 501, Message := "Not Implemented" } ∧
      NotImplemented [m] = { Status := 501, Message := m }) ∧
    (BadGateway [] = { Status := 502, Message := "Bad Gateway" } ∧
      BadGateway [m] = { Status := 502, Message := m }) ∧
    (ServiceUnavailable [] = { Status := 503, Message := "Service Unavailable" } ∧
      ServiceUnavailable [m] = { Status := 503, Message := m }) ∧
    (GatewayTimeout [] = { Status := 504, Message := "Gateway Timeout" } ∧
      GatewayTimeout [m] = { Status := 504, Message := m }) ∧
    (HTTPVersionNotSupported [] = { Status := 505, Message := "HTTP Version Not Supported" } ∧
      HTTPVersionNotSupported [m] = { Status := 505, Message := m }) ∧
    (VariantAlsoNegotiates [] = { Status := 506, Message := "Variant Also Negotiates" } ∧
      VariantAlsoNegotiates [m] = { Status := 506, Message := m }) ∧
    (InsufficientStorage [] = { Status := 507, Message := "Insufficient Storage" } ∧
      InsufficientStorage [m] = { Status := 507, Message := m }) ∧
    (LoopDetected [] = { Status := 508, Message := "Loop Detected" } ∧
      LoopDetected [m] = { Status := 508, Message := m }) ∧
    (NotExtended [] = { Status := 510, Message := "Not Extended" } ∧
      NotExtended [m] = { Status := 510, Message := m }) ∧
    (NetworkAuthenticationRequired [] = { Status := 511, Message := "Network Authentication Required" } ∧
      NetworkAuthenticationRequired [m] = { Status := 511, Message := m }) :=
  ⟨⟨rfl, rfl⟩, ⟨rfl, rfl⟩, ⟨rfl, rfl⟩, ⟨rfl, rfl⟩, ⟨rfl, rfl⟩, ⟨rfl, rfl⟩,
    ⟨rfl, rfl⟩, ⟨rfl, rfl⟩, ⟨rfl, rfl⟩, ⟨rfl, rfl⟩, ⟨rfl, rfl⟩, ⟨rfl, rfl⟩,
    ⟨rfl, rfl⟩, ⟨rfl, rfl⟩, ⟨rfl, rfl⟩, ⟨rfl, rfl⟩, ⟨rfl, rfl⟩, ⟨rfl, rfl⟩,
    ⟨rfl, rfl⟩, ⟨rfl, rfl⟩, ⟨rfl, rfl⟩, ⟨rfl, rfl⟩, ⟨rfl, rfl⟩, ⟨rfl, rfl⟩,
    ⟨rfl, rfl⟩, ⟨rfl, rfl⟩, ⟨rfl, rfl⟩, ⟨rfl, rfl⟩, ⟨rfl, rfl⟩, ⟨rfl, rfl⟩,
    ⟨rfl, rfl⟩, ⟨rfl, rfl⟩, ⟨rfl, rfl⟩, ⟨rfl, rfl⟩, ⟨rfl, rfl⟩, ⟨rfl, rfl⟩,
    ⟨rfl, rfl⟩, ⟨rfl, rfl⟩, ⟨rfl, rfl⟩, ⟨rfl, rfl⟩⟩

/-- C7 counterexample: 700 is outside the valid HTTP range 100-599, yet
`New` returns a value carrying exactly that out-of-range status unchanged:
the factory neither fails nor clamps. -/
theorem new_accepts_out_of_range_status :
    ((700 : Int) < 100 ∨ 599 < (700 : Int)) ∧
      New 700 "boom" = { Status := 700, Message := "boom" } :=
  ⟨Or.inr (by decide), rfl⟩

/-- C7 (amended): `New` performs no range validation at all: for every
status, in range or not, it succeeds and returns a value carrying exactly
that status and message; it never fails and never clamps. -/
theorem new_carries_status_unvalidated (status : Int) (message : String) :
    New status message = { Status := status, Message := message } :=
  rfl

/-- Models the underlying `http.ResponseWriter` sink: the header map, the
ordered list of status lines it has been asked to write, the ordered body
chunks, and which optional capabilities (`http.Flusher`, `http.Pusher`,
`http.Hijacker`) its dynamic type provides. -/
structure Sink where
  headers : List (String × String)
  statusCalls : List Int
  body : List String
  flushCalls : Nat
  pushCalls : List String
  hasFlusher : Bool
  hasPusher : Bool
  hasHijacker : Bool
deriving DecidableEq

/-- Models `w.Header().Set(k, v)` on the sink's header map: replace any
existing entry for the key, as Go's `http.Header.Set` does. -/
def sinkSetHeader (s : Sink) (k v : String) : Sink :=
  { s with headers := s.headers.filter (fun kv => kv.1 ≠ k) ++ [(k, v)] }

/-- Models `WriteHeader(code)` on the underlying sink: the status line is
recorded in call order. -/
def sinkWriteHeader (s : Sink) (code : Int) : Sink :=
  { s with statusCalls := s.statusCalls ++ [code] }

/-- Models `Write(b)` on the underlying sink: the chunk is appended to the
body. -/
def sinkWrite (s : Sink) (b : String) : Sink :=
  { s with body := s.body ++ [b] }

/-- Models `Flush()` on the underlying sink. -/
def sinkFlush (s : Sink) : Sink :=
  { s with flushCalls := s.flushCalls + 1 }

/-- Models `Push(target, opts)` on the underlying sink. -/
def sinkPush (s : Sink) (target : String) : Sink :=
  { s with pushCalls := s.pushCalls ++ [target] }

/-- Models the sentinel error values the wrapper can return:
`http.ErrHijacked`, `http.ErrNotSupported`, and the package's own
`errors.New("hijack not supported")`. -/
inductive GoErr where
  | errHijacked
  | errNotSupported
  | hijackNotSupported
deriving DecidableEq

/-- Embeds the `responseWriter` struct (httperror.go): the wrapping proxy
with its embedded sink and the `wroteHeader`, `hijacked` and `code`
fields. -/
structure RW where
  sink : Sink
  wroteHeader : Bool
  hijacked : Bool
  code : Int
deriving DecidableEq

/-- Builds the wrapper exactly as the middleware does:
`&responseWriter{ResponseWriter: w}`, with Go zero values for the other
fields. -/
def freshRW (s : Sink) : RW :=
  { sink := s, wroteHeader := false, hijacked := false, code := 0 }

/-- Embeds `func (rw *responseWriter) WriteHeader(code int)`: ignored when
already written or hijacked; otherwise records the code, flips
`wroteHeader`, and forwards the status line to the sink. -/
def RW.writeHeader (rw : RW) (code : Int) : RW :=
  if rw.wroteHeader || rw.hijacked then rw
  else
    { rw with
      code := code
      wroteHeader := true
      sink := sinkWriteHeader rw.sink code }

/-- Embeds `func (rw *responseWriter) Write(b []byte) (int, error)`: fails
with `http.ErrHijacked` after hijack; otherwise commits with status 200
first if not yet committed, then forwards the chunk to the sink. -/
def RW.write (rw : RW) (b : String) : RW × Except GoErr Nat :=
  if rw.hijacked then (rw, Except.error GoErr.errHijacked)
  else
    let rw := if !rw.wroteHeader then rw.writeHeader 200 else rw
    ({ rw with sink := sinkWrite rw.sink b }, Except.ok b.length)

/-- Embeds `func (rw *responseWriter) Flush()`: returns immediately when
hijacked; otherwise commits with status 200 first if not yet committed,
then delegates to the sink's flush capability when present. -/
def RW.flush (rw : RW) : RW :=
  if rw.hijacked then rw
  else
    let rw := if !rw.wroteHeader then rw.writeHeader 200 else rw
    if rw.sink.hasFlusher then { rw with sink := sinkFlush rw.sink } else rw

/-- Embeds `func (rw *responseWriter) Push(target string, opts
*http.PushOptions) error`: `http.ErrHijacked` after hijack, delegation when
the sink is a pusher, `http.ErrNotSupported` otherwise. -/
def RW.push (rw : RW) (target : String) : RW × Except GoErr Unit :=
  if rw.hijacked then (rw, Except.error GoErr.errHijacked)
  else if rw.sink.hasPusher then
    ({ rw with sink := sinkPush rw.sink target }, Except.ok ())
  else (rw, Except.error GoErr.errNotSupported)

/-- Embeds `func (rw *responseWriter) Hijack()`: when the sink is a
hijacker, delegate (modelled as succeeding) and flip `hijacked`; otherwise
fail with "hijack not supported" and leave state unchanged. -/
def RW.hijack (rw : RW) : RW × Except GoErr Unit :=
  if rw.sink.hasHijacker then ({ rw with hijacked := true }, Except.ok ())
  else (rw, Except.error GoErr.hijackNotSupported)

/-- One call of the C3 claim's call shape: a `WriteHeader` or a `Write` on
the wrapper. -/
inductive WCall where
  | writeHeaderCall (code : Int)
  | writeCall (b : String)
deriving DecidableEq

/-- Executes one `WCall` on the wrapper, discarding `Write`'s return
values. -/
def stepW (rw : RW) (c : WCall) : RW :=
  match c with
  | WCall.writeHeaderCall code => rw.writeHeader code
  | WCall.writeCall b => (rw.write b).1

/-- Executes a sequence of `WriteHeader`/`Write` calls on the wrapper. -/
def execW (rw : RW) (cs : List WCall) : RW :=
  cs.foldl stepW rw

/-- The status the first call of a sequence fixes: the argument of a
leading `WriteHeader`, or 200 when the sequence starts with a `Write`. -/
def firstStatus (cs : List WCall) : Int :=
  match cs with
  | WCall.writeHeaderCall code :: _ => code
  | WCall.writeCall _ :: _ => 200
  | [] => 0

/-- Once the wrapper is committed and not hijacked, further
`WriteHeader`/`Write` calls never change `wroteHeader`, `hijacked`, the
recorded `code`, or the status lines forwarded to the sink. -/
theorem execW_committed_stable (cs : List WCall) (rw : RW)
    (hw : rw.wroteHeader = true) (hh : rw.hijacked = false) :
    (execW rw cs).wroteHeader = true ∧ (execW rw cs).hijacked = false ∧
      (execW rw cs).code = rw.code ∧
      (execW rw cs).sink.statusCalls = rw.sink.statusCalls := by
  induction cs generalizing rw with
  | nil => exact ⟨hw, hh, rfl, rfl⟩
  | cons c rest ih =>
    cases c with
    | writeHeaderCall code =>
      have hstep : stepW rw (WCall.writeHeaderCall code) = rw := by
        simp [stepW, RW.writeHeader, hw]
      simpa [execW, List.foldl, hstep] using ih rw hw hh
    | writeCall b =>
      have hstep : stepW rw (WCall.writeCall b) =
          { rw with sink := sinkWrite rw.sink b } := by
        simp [stepW, RW.write, hw, hh]
      have := ih { rw with sink := sinkWrite rw.sink b } hw hh
      simpa [execW, List.foldl, hstep, sinkWrite] using this

/-- C3: for every nonempty sequence of `WriteHeader`/`Write` calls on a
fresh wrapper, the first call commits the response and fixes the recorded
status: `code` equals the first status set (200 when the first call is a
`Write`), and exactly that one status line reaches the sink, every later
`WriteHeader` being ignored. -/
theorem first_write_wins (s0 : Sink) (cs : List WCall) (hne : cs ≠ []) :
    (execW (freshRW s0) cs).wroteHeader = true ∧
      (execW (freshRW s0) cs).code = firstStatus cs ∧
      (execW (freshRW s0) cs).sink.statusCalls =
        s0.statusCalls ++ [firstStatus cs] := by
  cases cs with
  | nil => exact absurd rfl hne
  | cons c rest =>
    cases c with
    | writeHeaderCall code =>
      have hstep : stepW (freshRW s0) (WCall.writeHeaderCall code) =
          { sink := sinkWriteHeader s0 code, wroteHeader := true,
            hijacked := false, code := code } := by
        simp [stepW, RW.writeHeader, freshRW]
      have hstable := execW_committed_stable rest
        { sink := sinkWriteHeader s0 code, wroteHeader := true,
          hijacked := false, code := code } rfl rfl
      refine ⟨?_, ?_, ?_⟩ <;>
        simpa [execW, List.foldl, hstep, firstStatus, sinkWriteHeader]
          using by
            first
            | exact hstable.1
            | exact hstable.2.2.1
            | exact hstable.2.2.2
    | writeCall b =>
      have hstep : stepW (freshRW s0) (WCall.writeCall b) =
          { sink := sinkWrite (sinkWriteHeader s0 200) b,
            wroteHeader := true, hijacked := false, code := 200 } := by
        simp [stepW, RW.write, RW.writeHeader, freshRW]
      have hstable := execW_committed_stable rest
        { sink := sinkWrite (sinkWriteHeader s0 200) b,
          wroteHeader := true, hijacked := false, code := 200 } rfl rfl
      refine ⟨?_, ?_, ?_⟩ <;>
        simpa [execW, List.foldl, hstep, firstStatus, sinkWriteHeader,
          sinkWrite]
          using by
            first
            | exact hstable.1
            | exact hstable.2.2.1
            | exact hstable.2.2.2

/-- C3 witness: on a fresh wrapper over an empty sink, the sequence
`WriteHeader 404; WriteHeader 500; Write "x"` records status 404 and
forwards exactly one status line, 404, to the sink. -/
theorem first_write_wins_witness :
    ([WCall.writeHeaderCall 404, WCall.writeHeaderCall 500,
        WCall.writeCall "x"] ≠ ([] : List WCall)) ∧
      ((execW (freshRW ⟨[], [], [], 0, [], false, false, false⟩)
          [WCall.writeHeaderCall 404, WCall.writeHeaderCall 500,
            WCall.writeCall "x"]).wroteHeader = true ∧
        (execW (freshRW ⟨[], [], [], 0, [], false, false, false⟩)
          [WCall.writeHeaderCall 404, WCall.writeHeaderCall 500,
            WCall.writeCall "x"]).code =
          firstStatus [WCall.writeHeaderCall 404, WCall.writeHeaderCall 500,
            WCall.writeCall "x"] ∧
        (execW (freshRW ⟨[], [], [], 0, [], false, false, false⟩)
          [WCall.writeHeaderCall 404, WCall.writeHeaderCall 500,
            WCall.writeCall "x"]).sink.statusCalls =
          Sink.statusCalls ⟨[], [], [], 0, [], false, false, false⟩ ++
            [firstStatus [WCall.writeHeaderCall 404,
              WCall.writeHeaderCall 500, WCall.writeCall "x"]]) :=
  ⟨by decide,
    first_write_wins ⟨[], [], [], 0, [], false, false, false⟩
      [WCall.writeHeaderCall 404, WCall.writeHeaderCall 500,
        WCall.writeCall "x"] (by decide)⟩

/-- A fresh wrapper over an empty sink with no optional capabilities. -/
def rwBare : RW :=
  freshRW ⟨[], [], [], 0, [], false, false, false⟩

/-- A wrapper whose connection has been hijacked (sink supports hijacking,
`Hijack` succeeded), still uncommitted. -/
def rwHijacked : RW :=
  (RW.hijack (freshRW ⟨[], [], [], 0, [], false, false, true⟩)).1

/-- C8 counterexample: on an uncommitted, unhijacked wrapper over a sink
with no flush capability, `Flush` is not a no-op: it commits the response,
fixing status 200 and forwarding a status line to the sink. -/
theorem flush_commits_without_flusher :
    rwBare.hijacked = false ∧ rwBare.sink.hasFlusher = false ∧
      rwBare.wroteHeader = false ∧
      (RW.flush rwBare).wroteHeader = true ∧
      (RW.flush rwBare).code = 200 ∧
      (RW.flush rwBare).sink.statusCalls = [200] := by
  decide

/-- C8 (amended): `Flush` never fails; when hijacked it performs no action;
when not hijacked and not yet committed it first commits with status 200
(forwarding that status line to the sink even when the sink lacks flush
capability) and then delegates to the sink's flush capability when present;
only when not hijacked, already committed, and the sink lacks flush
capability is it a no-op leaving the wrapper's state unchanged. -/
theorem flush_behavior (rw : RW) :
    (rw.hijacked = true → RW.flush rw = rw) ∧
    (rw.hijacked = false → rw.wroteHeader = false →
      (RW.flush rw).wroteHeader = true ∧ (RW.flush rw).code = 200 ∧
        (RW.flush rw).sink.statusCalls = rw.sink.statusCalls ++ [200] ∧
        (rw.sink.hasFlusher = true →
          (RW.flush rw).sink.flushCalls = rw.sink.flushCalls + 1) ∧
        (rw.sink.hasFlusher = false →
          (RW.flush rw).sink.flushCalls = rw.sink.flushCalls)) ∧
    (rw.hijacked = false → rw.wroteHeader = true →
      rw.sink.hasFlusher = false → RW.flush rw = rw) ∧
    (rw.hijacked = false → rw.wroteHeader = true →
      rw.sink.hasFlusher = true →
      RW.flush rw = { rw with sink := sinkFlush rw.sink }) := by
  refine ⟨?_, ?_, ?_, ?_⟩
  · intro hh
    simp [RW.flush, hh]
  · intro hh hw
    cases hf : rw.sink.hasFlusher <;>
      simp [RW.flush, hh, hw, hf, RW.writeHeader, sinkWriteHeader, sinkFlush]
  · intro hh hw hf
    simp [RW.flush, hh, hw, hf]
  · intro hh hw hf
    simp [RW.flush, hh, hw, hf]

/-- C8 witness: the amended theorem applied to two uncommitted wrappers:
one whose sink lacks flush capability (`Flush` commits with status 200 and
delegates nothing) and one whose sink has it (`Flush` commits and then
invokes the sink's flush once). -/
theorem flush_behavior_witness :
    ((RW.flush rwBare).wroteHeader = true ∧
        (RW.flush rwBare).code = 200 ∧
        (RW.flush rwBare).sink.statusCalls =
          rwBare.sink.statusCalls ++ [200] ∧
        (RW.flush rwBare).sink.flushCalls = rwBare.sink.flushCalls) ∧
      ((RW.flush (freshRW ⟨[], [], [], 0, [], true, false, false⟩)).wroteHeader
          = true ∧
        (RW.flush (freshRW ⟨[], [], [], 0, [], true, false,
          false⟩)).sink.flushCalls =
          (freshRW ⟨[], [], [], 0, [], true, false,
            false⟩).sink.flushCalls + 1) :=
  ⟨⟨((flush_behavior rwBare).2.1 (by decide) (by decide)).1,
      ((flush_behavior rwBare).2.1 (by decide) (by decide)).2.1,
      ((flush_behavior rwBare).2.1 (by decide) (by decide)).2.2.1,
      ((flush_behavior rwBare).2.1 (by decide) (by decide)).2.2.2.2
        (by decide)⟩,
    ((flush_behavior (freshRW ⟨[], [], [], 0, [], true, false,
        false⟩)).2.1 (by decide) (by decide)).1,
    ((flush_behavior (freshRW ⟨[], [], [], 0, [], true, false,
        false⟩)).2.1 (by decide) (by decide)).2.2.2.1 (by decide)⟩

/-- C9 counterexample: on a hijacked wrapper, `Push` fails with
`http.ErrHijacked`, which is a different sentinel from the "not supported"
error `http.ErrNotSupported` the claim names. -/
theorem push_hijacked_not_errnotsupported :
    rwHijacked.hijacked = true ∧
      (RW.push rwHijacked "/asset").2 = Except.error GoErr.errHijacked ∧
      GoErr.errHijacked ≠ GoErr.errNotSupported :=
  ⟨rfl, rfl, by decide⟩

/-- C9 (amended): `Push` fails with `http.ErrHijacked` when the connection
has been hijacked; when not hijacked and the sink lacks push capability it
fails with `http.ErrNotSupported`; only when not hijacked and the
capability is present does it delegate to the sink's push. -/
theorem push_behavior (rw : RW) (target : String) :
    (rw.hijacked = true →
      RW.push rw target = (rw, Except.error GoErr.errHijacked)) ∧
    (rw.hijacked = false → rw.sink.hasPusher = false →
      RW.push rw target = (rw, Except.error GoErr.errNotSupported)) ∧
    (rw.hijacked = false → rw.sink.hasPusher = true →
      RW.push rw target =
        ({ rw with sink := sinkPush rw.sink target }, Except.ok ())) := by
  refine ⟨?_, ?_, ?_⟩
  · intro hh
    simp [RW.push, hh]
  · intro hh hp
    simp [RW.push, hh, hp]
  · intro hh hp
    simp [RW.push, hh, hp]

/-- C9 witness: the amended theorem applied to the hijacked wrapper and to
the bare wrapper lacking push capability: the former fails with
`ErrHijacked`, the latter with `ErrNotSupported`. -/
theorem push_behavior_witness :
    RW.push rwHijacked "/asset" =
        (rwHijacked, Except.error GoErr.errHijacked) ∧
      RW.push rwBare "/asset" =
        (rwBare, Except.error GoErr.errNotSupported) :=
  ⟨(push_behavior rwHijacked "/asset").1 (by decide),
    (push_behavior rwBare "/asset").2.1 (by decide) (by decide)⟩

/-- Models a Go `error` interface value as the middleware can observe it:
the nil interface, a typed-nil `*HttpError` wrapped in the interface, a
non-nil `*HttpError`, or any other error type carrying its `Error()`
text. -/
inductive GoErrorIface where
  | nilInterface
  | httpErrNil
  | httpErr (e : HttpError)
  | other (msg : String)
deriving DecidableEq

/-- Embeds the middleware's `reportError` closure (httperror.go): a typed
nil `*HttpError` is ignored; any other argument (the nil interface
included) overwrites the stored `handlerError`. -/
def reportErrorFn (handlerError : GoErrorIface) (err : GoErrorIface) :
    GoErrorIface :=
  match err with
  | GoErrorIface.httpErrNil => handlerError
  | _ => err

/-- One observable step the next-stage handler can take against the
wrapper, the header map, or the reporting primitive. -/
inductive HAction where
  | setHeader (k v : String)
  | writeHeader (code : Int)
  | write (b : String)
  | flush
  | hijack
  | push (target : String)
  | report (e : GoErrorIface)
deriving DecidableEq

/-- Executes one handler action on the wrapper plus the stored
`handlerError`, mirroring how each call reaches `responseWriter` or the
`reportError` closure; returned errors are discarded as a Go handler may
do. -/
def stepHandler (st : RW × GoErrorIface) (a : HAction) : RW × GoErrorIface :=
  match a with
  | HAction.setHeader k v =>
      ({ st.1 with sink := sinkSetHeader st.1.sink k v }, st.2)
  | HAction.writeHeader code => (st.1.writeHeader code, st.2)
  | HAction.write b => ((st.1.write b).1, st.2)
  | HAction.flush => (st.1.flush, st.2)
  | HAction.hijack => ((st.1.hijack).1, st.2)
  | HAction.push t => ((st.1.push t).1, st.2)
  | HAction.report e => (st.1, reportErrorFn st.2 e)

/-- Runs the next-stage handler: the middleware wraps the sink in a fresh
`responseWriter` and starts with `var handlerError error` (nil). -/
def runHandler (sink0 : Sink) (acts : List HAction) : RW × GoErrorIface :=
  acts.foldl stepHandler (freshRW sink0, GoErrorIface.nilInterface)

/-- One observable step of the configured error handler, which the
middleware invokes on the original unwrapped sink. -/
inductive EAction where
  | setHeader (k v : String)
  | writeHeader (code : Int)
  | write (b : String)
deriving DecidableEq

/-- Executes one error-handler action directly on the sink. -/
def stepErr (s : Sink) (a : EAction) : Sink :=
  match a with
  | EAction.setHeader k v => sinkSetHeader s k v
  | EAction.writeHeader code => sinkWriteHeader s code
  | EAction.write b => sinkWrite s b

/-- Runs the configured error handler, modelled by its sequence of sink
operations. -/
def runErrHandler (s : Sink) (acts : List EAction) : Sink :=
  acts.foldl stepErr s

/-- Embeds the decision the middleware takes after `next.ServeHTTP`
returns (httperror.go, NewErrorReporterMiddleware): when an error was
reported and the response is neither committed nor hijacked, delete every
header on the sink and invoke the error handler; otherwise do nothing.
Returns the final sink and whether the error handler was invoked. -/
def dispatch (rw : RW) (handlerError : GoErrorIface)
    (errActs : List EAction) : Sink × Bool :=
  if handlerError ≠ GoErrorIface.nilInterface then
    if rw.wroteHeader || rw.hijacked then (rw.sink, false)
    else (runErrHandler { rw.sink with headers := [] } errActs, true)
  else (rw.sink, false)

/-- Runs one full request through the middleware: the handler against the
wrapped writer, then the dispatch decision. -/
def runMiddleware (sink0 : Sink) (acts : List HAction)
    (errActs : List EAction) : Sink × Bool :=
  dispatch (runHandler sink0 acts).1 (runHandler sink0 acts).2 errActs

/-- The effect of one error-handler action on the header map alone. -/
def headerStep (hs : List (String × String)) (a : EAction) :
    List (String × String) :=
  match a with
  | EAction.setHeader k v => hs.filter (fun kv => kv.1 ≠ k) ++ [(k, v)]
  | _ => hs

/-- The headers the error handler itself produces when starting from an
empty header map. -/
def rendererHeaders (acts : List EAction) : List (String × String) :=
  acts.foldl headerStep []

/-- The header map after the error handler runs is a function of the
header map it started from and its own header operations. -/
theorem runErrHandler_headers (acts : List EAction) (s : Sink) :
    (runErrHandler s acts).headers = acts.foldl headerStep s.headers := by
  induction acts generalizing s with
  | nil => rfl
  | cons a rest ih =>
    cases a <;>
      simpa [runErrHandler, List.foldl, stepErr, sinkSetHeader,
        sinkWriteHeader, sinkWrite, headerStep] using ih _

/-- C1: whenever, after the handler returns, the response is committed or
the connection is hijacked, the middleware performs no further write to
the sink and drops any reported failure: the error handler is never
invoked and the sink is exactly as the handler left it. -/
theorem committed_or_hijacked_passthrough (sink0 : Sink)
    (acts : List HAction) (errActs : List EAction)
    (h : (runHandler sink0 acts).1.wroteHeader = true ∨
      (runHandler sink0 acts).1.hijacked = true) :
    runMiddleware sink0 acts errActs =
      ((runHandler sink0 acts).1.sink, false) := by
  unfold runMiddleware dispatch
  rcases h with h | h <;>
    cases he : (runHandler sink0 acts).2 <;> simp [h, he]

/-- An empty sink with no optional capabilities, used as the concrete
request environment of the witnesses. -/
def sinkBare : Sink :=
  ⟨[], [], [], 0, [], false, false, false⟩

/-- C1 witness: a handler that writes status 500 and then reports a
failure: the reported failure is dropped and the error handler is not
invoked. -/
theorem committed_or_hijacked_passthrough_witness :
    runMiddleware sinkBare
        [HAction.writeHeader 500, HAction.report (GoErrorIface.other "boom")]
        [EAction.setHeader "Content-Type" "application/json; charset=utf-8"] =
      ((runHandler sinkBare
        [HAction.writeHeader 500,
          HAction.report (GoErrorIface.other "boom")]).1.sink, false) :=
  committed_or_hijacked_passthrough sinkBare
    [HAction.writeHeader 500, HAction.report (GoErrorIface.other "boom")]
    [EAction.setHeader "Content-Type" "application/json; charset=utf-8"]
    (Or.inl (by decide))

/-- C2: when substitution occurs (a failure reported, response uncommitted,
connection not hijacked), the middleware deletes every header on the sink
before invoking the error handler, so the final response carries exactly
the headers the error handler itself sets. -/
theorem substitution_clears_handler_headers (sink0 : Sink)
    (acts : List HAction) (errActs : List EAction)
    (herr : (runHandler sink0 acts).2 ≠ GoErrorIface.nilInterface)
    (hw : (runHandler sink0 acts).1.wroteHeader = false)
    (hh : (runHandler sink0 acts).1.hijacked = false) :
    runMiddleware sink0 acts errActs =
      (runErrHandler
        { (runHandler sink0 acts).1.sink with headers := [] } errActs,
        true) ∧
      (runMiddleware sink0 acts errActs).1.headers =
        rendererHeaders errActs := by
  have hmain : runMiddleware sink0 acts errActs =
      (runErrHandler
        { (runHandler sink0 acts).1.sink with headers := [] } errActs,
        true) := by
    unfold runMiddleware dispatch
    simp [herr, hw, hh]
  refine ⟨hmain, ?_⟩
  rw [hmain]
  simpa [rendererHeaders] using
    runErrHandler_headers errActs
      { (runHandler sink0 acts).1.sink with headers := [] }

/-- C2 witness: a handler that sets a header and reports a failure without
writing; the error handler sets only a content type, and the final
response carries exactly that header. -/
theorem substitution_clears_handler_headers_witness :
    (runMiddleware sinkBare
        [HAction.setHeader "X-Token" "abc",
          HAction.report (GoErrorIface.other "boom")]
        [EAction.setHeader "Content-Type" "application/json; charset=utf-8"] =
      (runErrHandler
        { (runHandler sinkBare
            [HAction.setHeader "X-Token" "abc",
              HAction.report (GoErrorIface.other "boom")]).1.sink with
          headers := [] }
        [EAction.setHeader "Content-Type" "application/json; charset=utf-8"],
        true) ∧
      (runMiddleware sinkBare
        [HAction.setHeader "X-Token" "abc",
          HAction.report (GoErrorIface.other "boom")]
        [EAction.setHeader "Content-Type"
          "application/json; charset=utf-8"]).1.headers =
        rendererHeaders
          [EAction.setHeader "Content-Type"
            "application/json; charset=utf-8"]) :=
  substitution_clears_handler_headers sinkBare
    [HAction.setHeader "X-Token" "abc",
      HAction.report (GoErrorIface.other "boom")]
    [EAction.setHeader "Content-Type" "application/json; charset=utf-8"]
    (by decide) (by decide) (by decide)

/-- True for actions that are not invocations of the reporting
primitive. -/
def nonReportAction : HAction → Bool
  | HAction.report _ => false
  | _ => true

/-- True when every invocation of the reporting primitive in the list
reports a typed-nil `*HttpError`. -/
def reportsOnlyTypedNil (acts : List HAction) : Bool :=
  acts.all fun a =>
    match a with
    | HAction.report e => decide (e = GoErrorIface.httpErrNil)
    | _ => true

/-- When every report in the list is a typed-nil `*HttpError`, running the
handler is the same as running it with all report actions removed. -/
theorem foldl_drop_typed_nil_reports (acts : List HAction)
    (st : RW × GoErrorIface) (h : reportsOnlyTypedNil acts = true) :
    acts.foldl stepHandler st =
      (acts.filter nonReportAction).foldl stepHandler st := by
  induction acts generalizing st with
  | nil => rfl
  | cons a rest ih =>
    have hcons := h
    simp only [reportsOnlyTypedNil, List.all_cons, Bool.and_eq_true] at hcons
    have hrest : reportsOnlyTypedNil rest = true := hcons.2
    cases a with
    | report e =>
      have he : e = GoErrorIface.httpErrNil := by
        simpa using hcons.1
      subst he
      have hstep : stepHandler st (HAction.report GoErrorIface.httpErrNil) =
          st := by
        simp [stepHandler, reportErrorFn]
      simpa [List.foldl, List.filter, nonReportAction, hstep] using
        ih st hrest
    | setHeader k v =>
      simpa [List.foldl, List.filter, nonReportAction] using ih _ hrest
    | writeHeader code =>
      simpa [List.foldl, List.filter, nonReportAction] using ih _ hrest
    | write b =>
      simpa [List.foldl, List.filter, nonReportAction] using ih _ hrest
    | flush =>
      simpa [List.foldl, List.filter, nonReportAction] using ih _ hrest
    | hijack =>
      simpa [List.foldl, List.filter, nonReportAction] using ih _ hrest
    | push t =>
      simpa [List.foldl, List.filter, nonReportAction] using ih _ hrest

/-- Running only non-report actions leaves the stored `handlerError`
untouched. -/
theorem foldl_filter_nonreport_err (acts : List HAction)
    (st : RW × GoErrorIface) :
    ((acts.filter nonReportAction).foldl stepHandler st).2 = st.2 := by
  induction acts generalizing st with
  | nil => rfl
  | cons a rest ih =>
    cases a <;>
      simpa [List.filter, nonReportAction, List.foldl, stepHandler] using
        ih _

/-- C5: reporting a typed-nil `*HttpError` leaves the stored failure
unchanged, and a request in which only typed-nil values were reported
behaves exactly like one with no reports at all: the stored failure stays
nil, the error handler is never invoked, and the response is the one the
handler produced. -/
theorem typed_nil_reports_are_noops (he : GoErrorIface) (sink0 : Sink)
    (acts : List HAction) (errActs : List EAction)
    (hall : reportsOnlyTypedNil acts = true) :
    reportErrorFn he GoErrorIface.httpErrNil = he ∧
      (runHandler sink0 acts).2 = GoErrorIface.nilInterface ∧
      runMiddleware sink0 acts errActs =
        runMiddleware sink0 (acts.filter nonReportAction) errActs ∧
      runMiddleware sink0 acts errActs =
        ((runHandler sink0 acts).1.sink, false) := by
  have hdrop := foldl_drop_typed_nil_reports acts
    (freshRW sink0, GoErrorIface.nilInterface) hall
  have hrun : runHandler sink0 acts =
      runHandler sink0 (acts.filter nonReportAction) := by
    simpa [runHandler] using hdrop
  have herr : (runHandler sink0 acts).2 = GoErrorIface.nilInterface := by
    rw [hrun]
    simpa [runHandler] using
      foldl_filter_nonreport_err acts
        (freshRW sink0, GoErrorIface.nilInterface)
  refine ⟨rfl, herr, ?_, ?_⟩
  · unfold runMiddleware
    rw [hrun]
  · unfold runMiddleware dispatch
    simp [herr]

/-- C5 witness: a handler that reports typed-nil values around a header
write: the stored failure stays nil, the run equals the report-free run,
and no substitution happens. -/
theorem typed_nil_reports_are_noops_witness :
    (reportErrorFn (GoErrorIface.other "kept") GoErrorIface.httpErrNil =
        GoErrorIface.other "kept" ∧
      (runHandler sinkBare
        [HAction.report GoErrorIface.httpErrNil,
          HAction.setHeader "A" "b",
          HAction.report GoErrorIface.httpErrNil]).2 =
        GoErrorIface.nilInterface ∧
      runMiddleware sinkBare
        [HAction.report GoErrorIface.httpErrNil,
          HAction.setHeader "A" "b",
          HAction.report GoErrorIface.httpErrNil] [] =
        runMiddleware sinkBare
          ([HAction.report GoErrorIface.httpErrNil,
            HAction.setHeader "A" "b",
            HAction.report GoErrorIface.httpErrNil].filter
            nonReportAction) [] ∧
      runMiddleware sinkBare
        [HAction.report GoErrorIface.httpErrNil,
          HAction.setHeader "A" "b",
          HAction.report GoErrorIface.httpErrNil] [] =
        ((runHandler sinkBare
          [HAction.report GoErrorIface.httpErrNil,
            HAction.setHeader "A" "b",
            HAction.report GoErrorIface.httpErrNil]).1.sink, false)) :=
  typed_nil_reports_are_noops (GoErrorIface.other "kept") sinkBare
    [HAction.report GoErrorIface.httpErrNil,
      HAction.setHeader "A" "b",
      HAction.report GoErrorIface.httpErrNil] []
    (by decide)

/-- The arguments passed to the reporting primitive, in call order. -/
def reportsOf : List HAction → List GoErrorIface
  | [] => []
  | HAction.report e :: rest => e :: reportsOf rest
  | HAction.setHeader _ _ :: rest => reportsOf rest
  | HAction.writeHeader _ :: rest => reportsOf rest
  | HAction.write _ :: rest => reportsOf rest
  | HAction.flush :: rest => reportsOf rest
  | HAction.hijack :: rest => reportsOf rest
  | HAction.push _ :: rest => reportsOf rest

/-- The stored failure after any action sequence is the last reported
value that is not a typed-nil `*HttpError`, defaulting to the initial
value. -/
theorem foldl_last_non_typed_nil (acts : List HAction)
    (st : RW × GoErrorIface) :
    (acts.foldl stepHandler st).2 =
      ((reportsOf acts).filter
        (fun e => !decide (e = GoErrorIface.httpErrNil))).getLastD st.2 := by
  induction acts generalizing st with
  | nil => rfl
  | cons a rest ih =>
    cases a with
    | report e =>
      by_cases he : e = GoErrorIface.httpErrNil
      · subst he
        have hstep : stepHandler st (HAction.report GoErrorIface.httpErrNil)
            = st := by
          simp [stepHandler, reportErrorFn]
        simpa [List.foldl, hstep, reportsOf, List.filter] using ih st
      · have hstep : stepHandler st (HAction.report e) = (st.1, e) := by
          cases e <;> simp_all [stepHandler, reportErrorFn]
        have hp : (!decide (e = GoErrorIface.httpErrNil)) = true := by
          simpa using he
        have hfil : (reportsOf (HAction.report e :: rest)).filter
            (fun x => !decide (x = GoErrorIface.httpErrNil)) =
            e :: (reportsOf rest).filter
              (fun x => !decide (x = GoErrorIface.httpErrNil)) := by
          simp [reportsOf, List.filter_cons, hp]
        rw [List.foldl_cons, hstep, ih (st.1, e), hfil, List.getLastD_cons]
    | setHeader k v =>
      simpa [List.foldl, stepHandler, reportsOf] using ih _
    | writeHeader code =>
      simpa [List.foldl, stepHandler, reportsOf] using ih _
    | write b =>
      simpa [List.foldl, stepHandler, reportsOf] using ih _
    | flush =>
      simpa [List.foldl, stepHandler, reportsOf] using ih _
    | hijack =>
      simpa [List.foldl, stepHandler, reportsOf] using ih _
    | push t =>
      simpa [List.foldl, stepHandler, reportsOf] using ih _

/-- C10: when the reporting primitive is invoked several times in one
request, the failure the dispatch decision acts on is the last reported
error that is not a typed-nil `*HttpError` (last-write-wins), defaulting
to nil when every report was typed-nil or there was none. -/
theorem last_non_typed_nil_report_wins (sink0 : Sink)
    (acts : List HAction) (errActs : List EAction) :
    (runHandler sink0 acts).2 =
      ((reportsOf acts).filter
        (fun e => !decide (e = GoErrorIface.httpErrNil))).getLastD
        GoErrorIface.nilInterface ∧
      runMiddleware sink0 acts errActs =
        dispatch (runHandler sink0 acts).1
          (((reportsOf acts).filter
            (fun e => !decide (e = GoErrorIface.httpErrNil))).getLastD
            GoErrorIface.nilInterface) errActs := by
  have h : (runHandler sink0 acts).2 =
      ((reportsOf acts).filter
        (fun e => !decide (e = GoErrorIface.httpErrNil))).getLastD
        GoErrorIface.nilInterface := by
    simpa [runHandler] using
      foldl_last_non_typed_nil acts (freshRW sink0, GoErrorIface.nilInterface)
  exact ⟨h, by unfold runMiddleware; rw [h]⟩

/-- True when the first list is a leading segment of the second. -/
def isLeadingSegment : List Char → List Char → Bool
  | [], _ => true
  | _ :: _, [] => false
  | a :: as, b :: bs => a = b && isLeadingSegment as bs

/-- True when `sub` occurs contiguously inside `hay`. -/
def containsList (hay sub : List Char) : Bool :=
  match hay with
  | [] => decide (sub = [])
  | _ :: rest => isLeadingSegment sub hay || containsList rest sub

/-- Embeds Go's `strings.Contains(s, substr)`. -/
def goContains (s substr : String) : Bool :=
  containsList s.toList substr.toList

/-- Embeds the Accept-header check of `DefaultErrorHandler`
(httperror.go): HTML is preferred when the Accept header is nonempty and
mentions `text/html` or `application/xhtml+xml`. -/
def htmlPreferred (accept : String) : Bool :=
  if accept = "" then false
  else goContains accept "text/html" || goContains accept "application/xhtml+xml"

/-- Models the escaping Go's `encoding/json` applies inside a JSON string
literal (quotes, backslashes, HTML-significant characters, common control
characters). -/
def jsonEscape (s : String) : String :=
  String.join (s.toList.map fun c =>
    if c = '"' then "\\\""
    else if c = '\\' then "\\\\"
    else if c = '<' then "\\u003c"
    else if c = '>' then "\\u003e"
    else if c = '&' then "\\u0026"
    else if c = '\n' then "\\n"
    else if c = '\r' then "\\r"
    else if c = '\t' then "\\t"
    else String.singleton c)

/-- Models `json.NewEncoder(w).Encode(httpErr)`: the struct's two exported
fields with their `json` tags, followed by the encoder's trailing
newline. -/
def encodeJSON (e : HttpError) : String :=
  "\x7b\"status\":" ++ toString e.Status ++ ",\"message\":\"" ++
    jsonEscape e.Message ++ "\"\x7d\n"

/-- Embeds `func DefaultErrorHandler(w, r, err)` (httperror.go): content
negotiation on the Accept header, fallback of every non-(non-nil
`*HttpError`) failure to `InternalServerError()`, then status line,
content type and body on the sink. -/
def DefaultErrorHandler (w : Sink) (accept : String) (err : GoErrorIface) :
    Sink :=
  let useHTML := htmlPreferred accept
  let httpErr : HttpError :=
    match err with
    | GoErrorIface.httpErr e => e
    | _ => InternalServerError []
  let w1 := sinkWriteHeader w httpErr.Status
  if useHTML then
    sinkWrite (sinkSetHeader w1 "Content-Type" "text/html; charset=utf-8")
      ("<div class=\"http-error\">" ++ httpErr.Message ++ "</div>")
  else
    sinkWrite
      (sinkSetHeader w1 "Content-Type" "application/json; charset=utf-8")
      (encodeJSON httpErr)

/-- True exactly when the interface value is a non-nil `*HttpError`, the
only case `DefaultErrorHandler` renders as-is. -/
def isNonNilHttpError : GoErrorIface → Bool
  | GoErrorIface.httpErr _ => true
  | _ => false

/-- The fixed body `DefaultErrorHandler` writes for unrecognized failures:
the generic 500 value rendered per the Accept header; the message text is
always the constant "Internal Server Error". -/
def genericErrorBody (accept : String) : String :=
  if htmlPreferred accept then
    "<div class=\"http-error\">Internal Server Error</div>"
  else encodeJSON { Status := 500, Message := "Internal Server Error" }

/-- The generic fallback value is the fixed 500 error. -/
theorem internalServerError_nil :
    InternalServerError [] = { Status := 500, Message := "Internal Server Error" } :=
  rfl

/-- C4: for any two errors that are not non-nil `*HttpError` values,
`DefaultErrorHandler` writes exactly the same response: status 500, and a
body built only from the fixed generic "Internal Server Error" message, so
no part of the original error's own text reaches status, headers or
body. -/
theorem default_handler_hides_unrecognized (w : Sink) (accept : String)
    (e1 e2 : GoErrorIface) (h1 : isNonNilHttpError e1 = false)
    (h2 : isNonNilHttpError e2 = false) :
    DefaultErrorHandler w accept e1 = DefaultErrorHandler w accept e2 ∧
      (DefaultErrorHandler w accept e1).statusCalls =
        w.statusCalls ++ [500] ∧
      (DefaultErrorHandler w accept e1).body =
        w.body ++ [genericErrorBody accept] := by
  have hgen : ∀ e : GoErrorIface, isNonNilHttpError e = false →
      DefaultErrorHandler w accept e =
        DefaultErrorHandler w accept (GoErrorIface.other "") := by
    intro e he
    cases e with
    | httpErr e0 => simp [isNonNilHttpError] at he
    | nilInterface => rfl
    | httpErrNil => rfl
    | other msg => rfl
  have hw : DefaultErrorHandler w accept e1 =
      DefaultErrorHandler w accept (GoErrorIface.other "") := hgen e1 h1
  refine ⟨by rw [hgen e1 h1, hgen e2 h2], ?_, ?_⟩ <;> rw [hw] <;>
    cases hpref : htmlPreferred accept <;>
      simp [DefaultErrorHandler, hpref, genericErrorBody,
        internalServerError_nil, sinkWriteHeader, sinkSetHeader, sinkWrite]

/-- C4 witness: the theorem applied to a plain error and the nil
interface, with an empty Accept header: outputs coincide, the status is
500, and the body is the fixed generic JSON record. -/
theorem default_handler_hides_unrecognized_witness :
    (DefaultErrorHandler sinkBare "" (GoErrorIface.other "secret detail") =
        DefaultErrorHandler sinkBare "" GoErrorIface.nilInterface ∧
      (DefaultErrorHandler sinkBare ""
          (GoErrorIface.other "secret detail")).statusCalls =
        sinkBare.statusCalls ++ [500] ∧
      (DefaultErrorHandler sinkBare ""
          (GoErrorIface.other "secret detail")).body =
        sinkBare.body ++ [genericErrorBody ""]) :=
  default_handler_hides_unrecognized sinkBare ""
    (GoErrorIface.other "secret detail") GoErrorIface.nilInterface
    (by decide) (by decide)

end Httperror
